import Mathlib

/-!
Shallow embedding of `src/src/io/tmpnam_s.c` (safeclib) and verification of
the specification claims about `tmpnam_s`.

Modelling choices:
* The output buffer is a byte memory `Nat → Nat` (offset to byte value);
  `none` models a NULL `filename_s` pointer.
* The platform constants `RSIZE_MAX_STR`, `L_tmpnam_s`, `TMP_MAX_S` come from
  library headers outside the source file; they are fields of a `Config`
  record, as is the `SAFECLIB_STR_NULL_SLACK` build flag.
* The static counter `count` is passed in and returned explicitly.
* The external generator `tmpnam(filename_s)` is modelled by its observable
  behaviour: `none` (returned NULL, `errno` holds the platform error) or
  `some cand` (wrote the candidate bytes `cand` followed by a terminator into
  `filename_s` and returned that same pointer, so `result` aliases the
  buffer). A candidate is a proper C string: its bytes are nonzero, and
  `strlen(result)` is its length; theorems that need `strlen` state the
  nonzero-byte condition explicitly.
* Each `invoke_safe_str_constraint_handler` call is recorded as a `Report`
  event (message and reason code) in the order of invocation.
-/

namespace Safeclib

/-- `EOK` from the library headers: success. -/
def EOK : Int := 0

/-- `ESNULLP` from the library headers: null pointer argument. -/
def ESNULLP : Int := 400

/-- `ESZEROL` from the library headers: zero length. -/
def ESZEROL : Int := 401

/-- `ESLEMAX` from the library headers: length exceeds maximum. -/
def ESLEMAX : Int := 403

/-- `ESNOSPC` from the library headers: not enough space. -/
def ESNOSPC : Int := 406

/-- `ESNOTFND` from the library headers: not found. -/
def ESNOTFND : Int := 409

/-- Build-time constants of the library that `tmpnam_s.c` reads from headers
outside the source file, plus the `SAFECLIB_STR_NULL_SLACK` build flag. -/
structure Config where
  RSIZE_MAX_STR : Nat
  L_tmpnam_s : Nat
  TMP_MAX_S : Nat
  nullSlack : Bool
deriving DecidableEq, Repr

/-- One invocation of `invoke_safe_str_constraint_handler`: the static message
and the reason code passed to it. -/
structure Report where
  msg : String
  code : Int
deriving DecidableEq, Repr

/-- Which control-flow path of `tmpnam_s` produced the result.  This is
verification instrumentation: one tag per `return` statement of the source. -/
inductive Outcome where
  | ok
  | nullArg
  | zeroLen
  | capExceeded
  | exhausted
  | noSpace
  | lenExceedsMax
  | genFailed
deriving DecidableEq, Repr

/-- Result of a modelled `tmpnam_s` call: the `errno_t` return value, the
path tag, the final buffer contents (`none` when `filename_s` was NULL), the
final value of the static counter, and the recorded handler invocations. -/
structure TmpnamResult where
  ret : Int
  kind : Outcome
  buf : Option (Nat → Nat)
  count : Nat
  reports : List Report

/-- Write the byte list `bs` into memory `m` starting at offset `off`. -/
def writeBytes (m : Nat → Nat) (off : Nat) (bs : List Nat) : Nat → Nat :=
  fun i => if off ≤ i ∧ i < off + bs.length then bs.getD (i - off) 0 else m i

/-- Write the single byte `v` at offset `j` of memory `m`. -/
def writeByte (m : Nat → Nat) (j : Nat) (v : Nat) : Nat → Nat :=
  fun i => if i = j then v else m i

/-- Zero every byte of `m` at offsets `lo ≤ i < hi`; models
`memset_s(&result[len], maxsize, 0, maxsize-len)` with `lo = len`,
`hi = maxsize`. -/
def zeroRange (m : Nat → Nat) (lo hi : Nat) : Nat → Nat :=
  fun i => if lo ≤ i ∧ i < hi then 0 else m i

/-- Shallow embedding of `tmpnam_s` from `src/src/io/tmpnam_s.c`.

Arguments: the configuration constants, `filename_s` (a buffer or `none` for
NULL), `maxsize`, the current value of the `static int count`, the behaviour
`gen` of the external `tmpnam` call for this invocation, and the value the
platform `errno` would have after a failed `tmpnam` call. -/
def tmpnam_s (cfg : Config) (filename_s : Option (Nat → Nat)) (maxsize : Nat)
    (count : Nat) (gen : Option (List Nat)) (errno : Int) : TmpnamResult :=
  match filename_s with
  | none =>
      { ret := ESNULLP, kind := .nullArg, buf := none, count := count,
        reports := [⟨"tmpnam_s: filename_s is null", ESNULLP⟩] }
  | some buf =>
      if maxsize = 0 then
        { ret := ESZEROL, kind := .zeroLen, buf := some buf, count := count,
          reports := [⟨"tmpnam_s: maxsize is 0", ESZEROL⟩] }
      else if maxsize > cfg.RSIZE_MAX_STR ∨ maxsize > cfg.L_tmpnam_s then
        { ret := ESLEMAX, kind := .capExceeded, buf := some buf, count := count,
          reports := [⟨"tmpnam_s: maxsize exceeds max", ESLEMAX⟩] }
      else if count + 1 > cfg.TMP_MAX_S then
        { ret := ESLEMAX, kind := .exhausted, buf := some buf, count := count + 1,
          reports := [⟨"tmpnam_s: exceeds TMP_MAX_S", ESLEMAX⟩] }
      else
        match gen with
        | some cand =>
            let buf1 := writeBytes buf 0 (cand ++ [0])
            let len := cand.length
            if len > maxsize then
              { ret := ESNOSPC, kind := .noSpace,
                buf := some (writeByte buf1 0 0), count := count + 1,
                reports := [⟨"tmpnam_s: length exceeds size", ESNOSPC⟩] }
            else if len > cfg.L_tmpnam_s then
              { ret := ESLEMAX, kind := .lenExceedsMax,
                buf := some (writeByte buf1 0 0), count := count + 1,
                reports := [⟨"tmpnam_s: length exceeds L_tmpnam_s", ESLEMAX⟩] }
            else
              { ret := EOK, kind := .ok,
                buf := some (if cfg.nullSlack then zeroRange buf1 len maxsize else buf1),
                count := count + 1, reports := [] }
        | none =>
            { ret := errno, kind := .genFailed, buf := some buf, count := count + 1,
              reports := [⟨"tmpnam_s: tmpnam() failed", ESNOTFND⟩] }

/-- The static message passed to the constraint handler on each failing path. -/
def Outcome.reportMsg : Outcome → String
  | .ok => ""
  | .nullArg => "tmpnam_s: filename_s is null"
  | .zeroLen => "tmpnam_s: maxsize is 0"
  | .capExceeded => "tmpnam_s: maxsize exceeds max"
  | .exhausted => "tmpnam_s: exceeds TMP_MAX_S"
  | .noSpace => "tmpnam_s: length exceeds size"
  | .lenExceedsMax => "tmpnam_s: length exceeds L_tmpnam_s"
  | .genFailed => "tmpnam_s: tmpnam() failed"

/-- The reason code passed to the constraint handler on each failing path.
Note that on the `genFailed` path the handler receives `ESNOTFND` while the
function returns `errno`. -/
def Outcome.reportCode : Outcome → Int
  | .ok => EOK
  | .nullArg => ESNULLP
  | .zeroLen => ESZEROL
  | .capExceeded => ESLEMAX
  | .exhausted => ESLEMAX
  | .noSpace => ESNOSPC
  | .lenExceedsMax => ESLEMAX
  | .genFailed => ESNOTFND

/-- Byte at offset `i` of the result buffer, when the buffer is valid. -/
def bufAt (r : TmpnamResult) (i : Nat) : Option Nat :=
  r.buf.map (fun m => m i)

/-- C `strlen` starting at offset `i`, bounded by `fuel` bytes scanned. -/
def cstrlenFrom (m : Nat → Nat) : Nat → Nat → Nat
  | _, 0 => 0
  | i, fuel + 1 => if m i = 0 then 0 else cstrlenFrom m (i + 1) fuel + 1

/-- C `strlen` of the string at offset 0 of `m`, scanning at most `fuel`
bytes; adequate whenever a terminator occurs within `fuel` bytes. -/
def cstrlen (m : Nat → Nat) (fuel : Nat) : Nat :=
  cstrlenFrom m 0 fuel

/-- Length of the C string at offset 0 of the result buffer, when valid. -/
def bufCstrlen (r : TmpnamResult) (fuel : Nat) : Option Nat :=
  r.buf.map (fun m => cstrlen m fuel)

/-- Concrete configuration used to evaluate the model: the glibc-style values
`RSIZE_MAX_STR = 4096`, `L_tmpnam_s = 20`, `TMP_MAX_S = 238328`, with
`SAFECLIB_STR_NULL_SLACK` enabled. -/
def cfgW : Config := ⟨4096, 20, 238328, true⟩

/-- Concrete caller buffer whose every byte is 65 (ASCII `A`): stale nonzero
data, so a forced terminator write at offset 0 is observable. -/
def bufW : Nat → Nat := fun _ => 65

/-- Concrete 5-byte candidate name (`tmp.a`), no interior zero byte. -/
def candW : List Nat := [116, 109, 112, 46, 97]

/-- Concrete 20-byte candidate name, no interior zero byte. -/
def candLongW : List Nat := List.replicate 20 97

/-- C2: the precondition checks run in the fixed order null buffer, zero
capacity, capacity over maxima, counter exhaustion; the first failing check
determines the outcome and short-circuits the rest.  In particular a null
buffer wins over any capacity value, including zero, so null AND zero
capacity yields `ESNULLP`, not `ESZEROL`. -/
theorem tmpnam_s_check_order (cfg : Config) (buf : Nat → Nat)
    (maxsize count : Nat) (gen : Option (List Nat)) (errno : Int) :
    ((tmpnam_s cfg none maxsize count gen errno).ret = ESNULLP ∧
      (tmpnam_s cfg none maxsize count gen errno).kind = Outcome.nullArg) ∧
    (maxsize = 0 →
      (tmpnam_s cfg (some buf) maxsize count gen errno).ret = ESZEROL ∧
      (tmpnam_s cfg (some buf) maxsize count gen errno).kind = Outcome.zeroLen) ∧
    (maxsize ≠ 0 → (maxsize > cfg.RSIZE_MAX_STR ∨ maxsize > cfg.L_tmpnam_s) →
      (tmpnam_s cfg (some buf) maxsize count gen errno).ret = ESLEMAX ∧
      (tmpnam_s cfg (some buf) maxsize count gen errno).kind = Outcome.capExceeded) ∧
    (maxsize ≠ 0 → maxsize ≤ cfg.RSIZE_MAX_STR → maxsize ≤ cfg.L_tmpnam_s →
      count + 1 > cfg.TMP_MAX_S →
      (tmpnam_s cfg (some buf) maxsize count gen errno).ret = ESLEMAX ∧
      (tmpnam_s cfg (some buf) maxsize count gen errno).kind = Outcome.exhausted) := by
  refine ⟨⟨rfl, rfl⟩, ?_, ?_, ?_⟩
  · intro h0
    simp [tmpnam_s, h0]
  · intro h0 h1
    simp [tmpnam_s, h0, h1]
  · intro h0 hR hL hc
    have h1 : ¬(maxsize > cfg.RSIZE_MAX_STR ∨ maxsize > cfg.L_tmpnam_s) := by omega
    simp [tmpnam_s, h0, h1, hc]

/-- Closed witness for C2 at concrete inputs; the second conjunct is the
claim's highlighted instance: null buffer together with zero capacity is
reported as `ESNULLP`. -/
theorem tmpnam_s_check_order_witness :
    ((tmpnam_s cfgW none 8 0 none 2).ret = ESNULLP ∧
      (tmpnam_s cfgW none 0 0 none 2).ret = ESNULLP) ∧
    (tmpnam_s cfgW (some bufW) 0 0 none 2).ret = ESZEROL ∧
    (tmpnam_s cfgW (some bufW) 5000 0 none 2).kind = Outcome.capExceeded ∧
    (tmpnam_s cfgW (some bufW) 8 238328 none 2).kind = Outcome.exhausted :=
  ⟨⟨(tmpnam_s_check_order cfgW bufW 8 0 none 2).1.1,
    (tmpnam_s_check_order cfgW bufW 0 0 none 2).1.1⟩,
   ((tmpnam_s_check_order cfgW bufW 0 0 none 2).2.1 rfl).1,
   ((tmpnam_s_check_order cfgW bufW 5000 0 none 2).2.2.1 (by decide)
     (Or.inl (by decide))).2,
   ((tmpnam_s_check_order cfgW bufW 8 238328 none 2).2.2.2 (by decide)
     (by decide) (by decide) (by decide)).2⟩

/-- C3: every invocation that passes the null, zero-capacity and
capacity-maximum checks increments the static counter exactly once, on every
remaining path (exhaustion failure included, with no rollback), and once the
counter has reached the failing range every subsequent such invocation is
`ResourceExhausted` regardless of the generator, the counter staying in the
failing range afterwards. -/
theorem tmpnam_s_counter (cfg : Config) (buf : Nat → Nat)
    (maxsize count : Nat) (gen : Option (List Nat)) (errno : Int)
    (h0 : maxsize ≠ 0) (hR : maxsize ≤ cfg.RSIZE_MAX_STR)
    (hL : maxsize ≤ cfg.L_tmpnam_s) :
    (tmpnam_s cfg (some buf) maxsize count gen errno).count = count + 1 ∧
    (cfg.TMP_MAX_S ≤ count →
      (tmpnam_s cfg (some buf) maxsize count gen errno).kind = Outcome.exhausted ∧
      (tmpnam_s cfg (some buf) maxsize count gen errno).ret = ESLEMAX ∧
      cfg.TMP_MAX_S ≤ (tmpnam_s cfg (some buf) maxsize count gen errno).count) := by
  have h1 : ¬(maxsize > cfg.RSIZE_MAX_STR ∨ maxsize > cfg.L_tmpnam_s) := by omega
  constructor
  · by_cases hc : count + 1 > cfg.TMP_MAX_S
    · simp [tmpnam_s, h0, h1, hc]
    · rcases gen with _ | cand
      · simp [tmpnam_s, h0, h1, hc]
      · by_cases h3 : cand.length > maxsize
        · simp [tmpnam_s, h0, h1, hc, h3]
        · by_cases h4 : cand.length > cfg.L_tmpnam_s
          · simp [tmpnam_s, h0, h1, hc, h3, h4]
          · simp [tmpnam_s, h0, h1, hc, h3, h4]
  · intro hex
    have hc : count + 1 > cfg.TMP_MAX_S := by omega
    refine ⟨by simp [tmpnam_s, h0, h1, hc], by simp [tmpnam_s, h0, h1, hc], ?_⟩
    have hk : (tmpnam_s cfg (some buf) maxsize count gen errno).count = count + 1 := by
      simp [tmpnam_s, h0, h1, hc]
    omega

/-- Closed witness for C3: at the exhaustion boundary the call fails with the
exhaustion outcome even though the generator offers a candidate, and the
counter is still incremented. -/
theorem tmpnam_s_counter_witness :
    (tmpnam_s cfgW (some bufW) 8 238328 (some candW) 2).count = 238329 ∧
    (tmpnam_s cfgW (some bufW) 8 238328 (some candW) 2).kind = Outcome.exhausted ∧
    (tmpnam_s cfgW (some bufW) 8 238328 (some candW) 2).ret = ESLEMAX ∧
    238328 ≤ (tmpnam_s cfgW (some bufW) 8 238328 (some candW) 2).count := by
  have h := tmpnam_s_counter cfgW bufW 8 238328 (some candW) 2 (by decide)
    (by decide) (by decide)
  exact ⟨h.1, (h.2 (by decide)).1, (h.2 (by decide)).2.1,
    (h.2 (by decide)).2.2⟩

/-- C10: the branch returning `ESLEMAX` because the candidate length exceeds
`L_tmpnam_s` is unreachable: whenever result validation runs, the candidate
length is at most `maxsize` (previous check) and `maxsize` is at most
`L_tmpnam_s` (earlier capacity check). -/
theorem tmpnam_s_lenExceedsMax_unreachable (cfg : Config)
    (filename_s : Option (Nat → Nat)) (maxsize count : Nat)
    (gen : Option (List Nat)) (errno : Int) :
    (tmpnam_s cfg filename_s maxsize count gen errno).kind ≠
      Outcome.lenExceedsMax := by
  rcases filename_s with _ | buf
  · simp [tmpnam_s]
  by_cases h0 : maxsize = 0
  · simp [tmpnam_s, h0]
  by_cases h1 : maxsize > cfg.RSIZE_MAX_STR ∨ maxsize > cfg.L_tmpnam_s
  · simp [tmpnam_s, h0, h1]
  by_cases hc : count + 1 > cfg.TMP_MAX_S
  · simp [tmpnam_s, h0, h1, hc]
  rcases gen with _ | cand
  · simp [tmpnam_s, h0, h1, hc]
  by_cases h3 : cand.length > maxsize
  · simp [tmpnam_s, h0, h1, hc, h3]
  · have h4 : ¬ cand.length > cfg.L_tmpnam_s := by omega
    simp [tmpnam_s, h0, h1, hc, h3, h4]

/-- C4 counterexample: the outcome codes are not pairwise distinct.  The
capacity-exceeded and exhaustion failures return the same code `ESLEMAX`,
and the generator-failure path returns the platform `errno` value, so two
generator failures can return two different codes. -/
theorem tmpnam_s_codes_not_distinct :
    (tmpnam_s cfgW (some bufW) 5000 0 (some candW) 2).kind = Outcome.capExceeded ∧
    (tmpnam_s cfgW (some bufW) 8 238328 (some candW) 2).kind = Outcome.exhausted ∧
    (tmpnam_s cfgW (some bufW) 5000 0 (some candW) 2).ret =
      (tmpnam_s cfgW (some bufW) 8 238328 (some candW) 2).ret ∧
    (tmpnam_s cfgW (some bufW) 8 0 none 2).kind = Outcome.genFailed ∧
    (tmpnam_s cfgW (some bufW) 8 0 none 13).kind = Outcome.genFailed ∧
    (tmpnam_s cfgW (some bufW) 8 0 none 2).ret ≠
      (tmpnam_s cfgW (some bufW) 8 0 none 13).ret := by
  decide

/-- C4 amended: every invocation returns a code from the closed set
`EOK`, `ESNULLP`, `ESZEROL`, `ESLEMAX`, `ESNOSPC`, or the platform `errno`
value of a failed generator call; `ESLEMAX` is shared by the
capacity-exceeded, exhaustion and candidate-too-long triggers, and the
generator-failure return is the `errno` pass-through (the handler, not the
return value, receives the fixed code `ESNOTFND`). -/
theorem tmpnam_s_ret_closed_set (cfg : Config)
    (filename_s : Option (Nat → Nat)) (maxsize count : Nat)
    (gen : Option (List Nat)) (errno : Int) :
    (tmpnam_s cfg filename_s maxsize count gen errno).ret = EOK ∨
    (tmpnam_s cfg filename_s maxsize count gen errno).ret = ESNULLP ∨
    (tmpnam_s cfg filename_s maxsize count gen errno).ret = ESZEROL ∨
    (tmpnam_s cfg filename_s maxsize count gen errno).ret = ESLEMAX ∨
    (tmpnam_s cfg filename_s maxsize count gen errno).ret = ESNOSPC ∨
    (tmpnam_s cfg filename_s maxsize count gen errno).ret = errno := by
  rcases filename_s with _ | buf
  · simp [tmpnam_s]
  by_cases h0 : maxsize = 0
  · simp [tmpnam_s, h0]
  by_cases h1 : maxsize > cfg.RSIZE_MAX_STR ∨ maxsize > cfg.L_tmpnam_s
  · simp [tmpnam_s, h0, h1]
  by_cases hc : count + 1 > cfg.TMP_MAX_S
  · simp [tmpnam_s, h0, h1, hc]
  rcases gen with _ | cand
  · simp [tmpnam_s, h0, h1, hc]
  by_cases h3 : cand.length > maxsize
  · simp [tmpnam_s, h0, h1, hc, h3]
  by_cases h4 : cand.length > cfg.L_tmpnam_s
  · simp [tmpnam_s, h0, h1, hc, h3, h4]
  · simp [tmpnam_s, h0, h1, hc, h3, h4]

/-- C1: evaluation at the failing inputs.  On the generator-failure path and
on the exhaustion path the buffer is valid yet byte 0 keeps its stale value
65 — no terminator is written, contrary to the claim and to the function's
own documentation; the generator-failure return is the nonzero `errno` 2. -/
theorem tmpnam_s_failure_keeps_stale_byte :
    (tmpnam_s cfgW (some bufW) 8 0 none 2).ret = 2 ∧
    (tmpnam_s cfgW (some bufW) 8 0 none 2).kind = Outcome.genFailed ∧
    bufAt (tmpnam_s cfgW (some bufW) 8 0 none 2) 0 = some 65 ∧
    (tmpnam_s cfgW (some bufW) 8 238328 (some candW) 2).kind = Outcome.exhausted ∧
    bufAt (tmpnam_s cfgW (some bufW) 8 238328 (some candW) 2) 0 = some 65 := by
  decide

/-- Byte lookup in `zeroRange`, inside the zeroed window. -/
theorem zeroRange_mem (m : Nat → Nat) (lo hi i : Nat) (h1 : lo ≤ i)
    (h2 : i < hi) : zeroRange m lo hi i = 0 := by
  simp [zeroRange, h1, h2]

/-- Byte lookup in `zeroRange`, outside the zeroed window. -/
theorem zeroRange_out (m : Nat → Nat) (lo hi i : Nat)
    (h : ¬(lo ≤ i ∧ i < hi)) : zeroRange m lo hi i = m i := by
  simp only [zeroRange]
  rw [if_neg h]

/-- Byte lookup in `writeBytes` at offset 0, inside the written region. -/
theorem writeBytes_zero_lt (m : Nat → Nat) (bs : List Nat) (i : Nat)
    (h : i < bs.length) : writeBytes m 0 bs i = bs.getD i 0 := by
  simp [writeBytes, h]

/-- The buffer contents produced by the success path of `tmpnam_s`: the
candidate plus terminator written by the generator into the caller's buffer,
then (only under `SAFECLIB_STR_NULL_SLACK`) the unused tail zeroed. -/
def okBuf (cfg : Config) (buf : Nat → Nat) (maxsize : Nat)
    (cand : List Nat) : Nat → Nat :=
  if cfg.nullSlack then
    zeroRange (writeBytes buf 0 (cand ++ [0])) cand.length maxsize
  else writeBytes buf 0 (cand ++ [0])

/-- On the success path `tmpnam_s` returns `EOK` with the `okBuf` buffer,
the incremented counter, and no handler invocation. -/
theorem tmpnam_s_ok_eq (cfg : Config) (buf : Nat → Nat)
    (maxsize count : Nat) (cand : List Nat) (errno : Int)
    (h0 : maxsize ≠ 0) (hR : maxsize ≤ cfg.RSIZE_MAX_STR)
    (hL : maxsize ≤ cfg.L_tmpnam_s) (hc : count + 1 ≤ cfg.TMP_MAX_S)
    (hlen : cand.length ≤ maxsize) :
    tmpnam_s cfg (some buf) maxsize count (some cand) errno =
      { ret := EOK, kind := Outcome.ok,
        buf := some (okBuf cfg buf maxsize cand),
        count := count + 1, reports := [] } := by
  have h1 : ¬(maxsize > cfg.RSIZE_MAX_STR ∨ maxsize > cfg.L_tmpnam_s) := by omega
  have hc' : ¬(count + 1 > cfg.TMP_MAX_S) := by omega
  have h3 : ¬(cand.length > maxsize) := by omega
  have h4 : ¬(cand.length > cfg.L_tmpnam_s) := by omega
  simp [tmpnam_s, okBuf, h0, h1, hc', h3, h4]

/-- Bytes of the success buffer inside the candidate: the candidate's own
bytes. -/
theorem okBuf_lt (cfg : Config) (buf : Nat → Nat) (maxsize : Nat)
    (cand : List Nat) (i : Nat) (h : i < cand.length) :
    okBuf cfg buf maxsize cand i = cand.getD i 0 := by
  have hb : writeBytes buf 0 (cand ++ [0]) i = cand.getD i 0 := by
    rw [writeBytes_zero_lt buf (cand ++ [0]) i (by simp; omega)]
    exact List.getD_append cand [0] 0 i h
  by_cases hs : cfg.nullSlack
  · simp only [okBuf, if_pos hs]
    rw [zeroRange_out _ _ _ _ (by omega), hb]
  · simp only [okBuf, if_neg hs]
    exact hb

/-- The success buffer holds the terminator right after the candidate. -/
theorem okBuf_term (cfg : Config) (buf : Nat → Nat) (maxsize : Nat)
    (cand : List Nat) (hlen : cand.length ≤ maxsize) :
    okBuf cfg buf maxsize cand cand.length = 0 := by
  have hb : writeBytes buf 0 (cand ++ [0]) cand.length = 0 := by
    rw [writeBytes_zero_lt buf (cand ++ [0]) cand.length (by simp)]
    rw [List.getD_append_right cand [0] 0 cand.length (by omega)]
    simp
  by_cases hs : cfg.nullSlack
  · simp only [okBuf, if_pos hs]
    by_cases hm : cand.length < maxsize
    · exact zeroRange_mem _ _ _ _ (le_refl _) hm
    · rw [zeroRange_out _ _ _ _ (by omega), hb]
  · simp only [okBuf, if_neg hs]
    exact hb

/-- With the null-slack policy on, the unused tail of the success buffer is
zero. -/
theorem okBuf_tail (cfg : Config) (buf : Nat → Nat) (maxsize : Nat)
    (cand : List Nat) (i : Nat) (hs : cfg.nullSlack = true)
    (h1 : cand.length ≤ i) (h2 : i < maxsize) :
    okBuf cfg buf maxsize cand i = 0 := by
  simp only [okBuf, if_pos hs]
  exact zeroRange_mem _ _ _ _ h1 h2

/-- If the bytes of `m` before offset `n` are nonzero and byte `n` is zero,
the bounded `strlen` scan starting at `i ≤ n` finds exactly `n - i`. -/
theorem cstrlenFrom_spec (m : Nat → Nat) (n : Nat) (hn : m n = 0)
    (hnz : ∀ j, j < n → m j ≠ 0) :
    ∀ fuel i, i ≤ n → n - i < fuel → cstrlenFrom m i fuel = n - i := by
  intro fuel
  induction fuel with
  | zero => intro i _ hf; omega
  | succ fuel ih =>
    intro i hi hf
    by_cases hmi : m i = 0
    · have hin : i = n := by
        by_contra hne
        exact hnz i (by omega) hmi
      subst hin
      simp [cstrlenFrom, hmi]
    · have hin : i < n := by
        rcases Nat.eq_or_lt_of_le hi with h | h
        · subst h
          exact absurd hn hmi
        · exact h
      have hrec := ih (i + 1) (by omega) (by omega)
      rw [show cstrlenFrom m i (fuel + 1) =
            if m i = 0 then 0 else cstrlenFrom m (i + 1) fuel + 1 from rfl,
          if_neg hmi, hrec]
      omega

/-- C5: when the generator's candidate is strictly longer than the declared
capacity, the call fails with `ESNOSPC` and the first byte of the output
buffer is forced to the terminator before returning. -/
theorem tmpnam_s_buffer_too_small (cfg : Config) (buf : Nat → Nat)
    (maxsize count : Nat) (cand : List Nat) (errno : Int)
    (h0 : maxsize ≠ 0) (hR : maxsize ≤ cfg.RSIZE_MAX_STR)
    (hL : maxsize ≤ cfg.L_tmpnam_s) (hc : count + 1 ≤ cfg.TMP_MAX_S)
    (hlen : cand.length > maxsize) :
    (tmpnam_s cfg (some buf) maxsize count (some cand) errno).ret = ESNOSPC ∧
    (tmpnam_s cfg (some buf) maxsize count (some cand) errno).kind =
      Outcome.noSpace ∧
    bufAt (tmpnam_s cfg (some buf) maxsize count (some cand) errno) 0 =
      some 0 := by
  have h1 : ¬(maxsize > cfg.RSIZE_MAX_STR ∨ maxsize > cfg.L_tmpnam_s) := by omega
  have hc' : ¬(count + 1 > cfg.TMP_MAX_S) := by omega
  simp [tmpnam_s, h0, h1, hc', hlen, bufAt, writeByte]

/-- Closed witness for C5: capacity 8 and a 20-byte candidate give
`ESNOSPC` with a terminator at byte 0. -/
theorem tmpnam_s_buffer_too_small_witness :
    (tmpnam_s cfgW (some bufW) 8 0 (some candLongW) 2).ret = ESNOSPC ∧
    (tmpnam_s cfgW (some bufW) 8 0 (some candLongW) 2).kind =
      Outcome.noSpace ∧
    bufAt (tmpnam_s cfgW (some bufW) 8 0 (some candLongW) 2) 0 = some 0 :=
  tmpnam_s_buffer_too_small cfgW bufW 8 0 candLongW 2 (by decide) (by decide)
    (by decide) (by decide) (by decide)

/-- C6 counterexample: the generator is opaque, so it can return the empty
candidate; the call then succeeds while the string left in the buffer is
empty, refuting the non-emptiness part of the claim. -/
theorem tmpnam_s_success_empty_candidate :
    (tmpnam_s cfgW (some bufW) 8 0 (some []) 2).ret = EOK ∧
    bufCstrlen (tmpnam_s cfgW (some bufW) 8 0 (some []) 2) 9 = some 0 := by
  decide

/-- C6 amended: on a success return the C string left in the buffer is the
candidate, so its length is at most the declared capacity and at most
`L_tmpnam_s`; it is nonzero whenever the candidate is nonempty (the code
never checks non-emptiness itself). -/
theorem tmpnam_s_success_length (cfg : Config) (buf : Nat → Nat)
    (maxsize count : Nat) (cand : List Nat) (errno : Int)
    (h0 : maxsize ≠ 0) (hR : maxsize ≤ cfg.RSIZE_MAX_STR)
    (hL : maxsize ≤ cfg.L_tmpnam_s) (hc : count + 1 ≤ cfg.TMP_MAX_S)
    (hlen : cand.length ≤ maxsize) (hnz : ∀ b ∈ cand, b ≠ 0) :
    (tmpnam_s cfg (some buf) maxsize count (some cand) errno).ret = EOK ∧
    bufCstrlen (tmpnam_s cfg (some buf) maxsize count (some cand) errno)
      (maxsize + 1) = some cand.length ∧
    cand.length ≤ maxsize ∧ cand.length ≤ cfg.L_tmpnam_s ∧
    (cand ≠ [] → 0 < cand.length) := by
  have heq := tmpnam_s_ok_eq cfg buf maxsize count cand errno h0 hR hL hc hlen
  refine ⟨by rw [heq], ?_, hlen, by omega, ?_⟩
  · rw [heq]
    simp only [bufCstrlen, Option.map_some', Option.some.injEq]
    have hterm := okBuf_term cfg buf maxsize cand hlen
    have hnzb : ∀ j, j < cand.length → okBuf cfg buf maxsize cand j ≠ 0 := by
      intro j hj
      rw [okBuf_lt cfg buf maxsize cand j hj]
      have hmem : cand.getD j 0 ∈ cand := by
        rw [List.getD_eq_getElem cand 0 hj]
        exact List.getElem_mem hj
      exact hnz _ hmem
    have hlenres := cstrlenFrom_spec (okBuf cfg buf maxsize cand) cand.length
      hterm hnzb (maxsize + 1) 0 (by omega) (by omega)
    simpa [cstrlen] using hlenres
  · intro hne
    cases cand with
    | nil => exact absurd rfl hne
    | cons a t => simp

/-- Closed witness for C6 amended: a 5-byte candidate in a capacity-8 buffer
succeeds and leaves a 5-byte C string. -/
theorem tmpnam_s_success_length_witness :
    (tmpnam_s cfgW (some bufW) 8 0 (some candW) 2).ret = EOK ∧
    bufCstrlen (tmpnam_s cfgW (some bufW) 8 0 (some candW) 2) 9 =
      some candW.length ∧
    candW.length ≤ 8 ∧ candW.length ≤ cfgW.L_tmpnam_s ∧ 0 < candW.length := by
  have h := tmpnam_s_success_length cfgW bufW 8 0 candW 2 (by decide)
    (by decide) (by decide) (by decide) (by decide) (by decide)
  exact ⟨h.1, h.2.1, h.2.2.1, h.2.2.2.1, h.2.2.2.2 (by decide)⟩

/-- C7: every failing path invokes the constraint handler exactly once, with
the static message and reason code fixed by that path, and the success path
invokes it not at all. -/
theorem tmpnam_s_reports_once (cfg : Config)
    (filename_s : Option (Nat → Nat)) (maxsize count : Nat)
    (gen : Option (List Nat)) (errno : Int) :
    ((tmpnam_s cfg filename_s maxsize count gen errno).kind ≠ Outcome.ok →
      (tmpnam_s cfg filename_s maxsize count gen errno).reports =
        [⟨Outcome.reportMsg
            (tmpnam_s cfg filename_s maxsize count gen errno).kind,
          Outcome.reportCode
            (tmpnam_s cfg filename_s maxsize count gen errno).kind⟩]) ∧
    ((tmpnam_s cfg filename_s maxsize count gen errno).kind = Outcome.ok →
      (tmpnam_s cfg filename_s maxsize count gen errno).reports = []) := by
  rcases filename_s with _ | buf
  · simp [tmpnam_s, Outcome.reportMsg, Outcome.reportCode]
  by_cases h0 : maxsize = 0
  · simp [tmpnam_s, h0, Outcome.reportMsg, Outcome.reportCode]
  by_cases h1 : maxsize > cfg.RSIZE_MAX_STR ∨ maxsize > cfg.L_tmpnam_s
  · simp [tmpnam_s, h0, h1, Outcome.reportMsg, Outcome.reportCode]
  by_cases hc : count + 1 > cfg.TMP_MAX_S
  · simp [tmpnam_s, h0, h1, hc, Outcome.reportMsg, Outcome.reportCode]
  rcases gen with _ | cand
  · simp [tmpnam_s, h0, h1, hc, Outcome.reportMsg, Outcome.reportCode]
  by_cases h3 : cand.length > maxsize
  · simp [tmpnam_s, h0, h1, hc, h3, Outcome.reportMsg, Outcome.reportCode]
  by_cases h4 : cand.length > cfg.L_tmpnam_s
  · simp [tmpnam_s, h0, h1, hc, h3, h4, Outcome.reportMsg, Outcome.reportCode]
  · simp [tmpnam_s, h0, h1, hc, h3, h4, Outcome.reportMsg, Outcome.reportCode]

/-- Closed witness for C7: one handler invocation with the static message and
code on a failing call, none on a successful call. -/
theorem tmpnam_s_reports_once_witness :
    (tmpnam_s cfgW (some bufW) 0 0 none 2).reports =
      [⟨Outcome.reportMsg Outcome.zeroLen, Outcome.reportCode Outcome.zeroLen⟩] ∧
    (tmpnam_s cfgW (some bufW) 8 0 (some candW) 2).reports = [] := by
  have hk : (tmpnam_s cfgW (some bufW) 0 0 none 2).kind = Outcome.zeroLen :=
    by decide
  have h1 := (tmpnam_s_reports_once cfgW (some bufW) 0 0 none 2).1 (by decide)
  rw [hk] at h1
  exact ⟨h1, (tmpnam_s_reports_once cfgW (some bufW) 8 0 (some candW) 2).2
    (by decide)⟩

/-- C8: with `SAFECLIB_STR_NULL_SLACK` configured, a successful call zeroes
every byte of the buffer from the candidate length up to the declared
capacity, while the reachable failure paths (candidate too long; generator
failure) never apply the tail-zeroing: the first leaves only the generator's
bytes plus the forced terminator at offset 0, the second leaves the buffer
untouched. -/
theorem tmpnam_s_null_slack_tail (cfg : Config) (buf : Nat → Nat)
    (maxsize count : Nat) (cand : List Nat) (errno : Int)
    (hs : cfg.nullSlack = true) (h0 : maxsize ≠ 0)
    (hR : maxsize ≤ cfg.RSIZE_MAX_STR) (hL : maxsize ≤ cfg.L_tmpnam_s)
    (hc : count + 1 ≤ cfg.TMP_MAX_S) :
    (cand.length ≤ maxsize →
      (tmpnam_s cfg (some buf) maxsize count (some cand) errno).ret = EOK ∧
      ∀ i, cand.length ≤ i → i < maxsize →
        bufAt (tmpnam_s cfg (some buf) maxsize count (some cand) errno) i =
          some 0) ∧
    (maxsize < cand.length →
      (tmpnam_s cfg (some buf) maxsize count (some cand) errno).buf =
        some (writeByte (writeBytes buf 0 (cand ++ [0])) 0 0)) ∧
    (tmpnam_s cfg (some buf) maxsize count none errno).buf = some buf := by
  have h1 : ¬(maxsize > cfg.RSIZE_MAX_STR ∨ maxsize > cfg.L_tmpnam_s) := by omega
  have hc' : ¬(count + 1 > cfg.TMP_MAX_S) := by omega
  refine ⟨?_, ?_, ?_⟩
  · intro hlen
    have heq := tmpnam_s_ok_eq cfg buf maxsize count cand errno h0 hR hL hc hlen
    refine ⟨by rw [heq], ?_⟩
    intro i hi1 hi2
    rw [heq]
    simp only [bufAt, Option.map_some', Option.some.injEq]
    exact okBuf_tail cfg buf maxsize cand i hs hi1 hi2
  · intro hlen
    simp [tmpnam_s, h0, h1, hc', hlen]
  · simp [tmpnam_s, h0, h1, hc']

/-- Closed witness for C8: with capacity 8 and a 5-byte candidate, byte 6 of
the buffer is zero after success; the too-long-candidate failure leaves the
candidate bytes plus a forced terminator only; a generator failure leaves the
buffer untouched. -/
theorem tmpnam_s_null_slack_tail_witness :
    bufAt (tmpnam_s cfgW (some bufW) 8 0 (some candW) 2) 6 = some 0 ∧
    (tmpnam_s cfgW (some bufW) 8 0 (some candLongW) 2).buf =
      some (writeByte (writeBytes bufW 0 (candLongW ++ [0])) 0 0) ∧
    (tmpnam_s cfgW (some bufW) 8 0 none 2).buf = some bufW :=
  ⟨((tmpnam_s_null_slack_tail cfgW bufW 8 0 candW 2 rfl (by decide) (by decide)
      (by decide) (by decide)).1 (by decide)).2 6 (by decide) (by decide),
   (tmpnam_s_null_slack_tail cfgW bufW 8 0 candLongW 2 rfl (by decide)
      (by decide) (by decide) (by decide)).2.1 (by decide),
   (tmpnam_s_null_slack_tail cfgW bufW 8 0 candW 2 rfl (by decide) (by decide)
      (by decide) (by decide)).2.2⟩

/-- C9: a candidate whose length equals the declared capacity exactly is
accepted: the call returns `EOK`, the candidate occupies offsets `0` to
`maxsize - 1`, and the terminator lands at offset `maxsize` — one byte past
the declared capacity, so capacity does not include the terminator at this
boundary. -/
theorem tmpnam_s_exact_fit (cfg : Config) (buf : Nat → Nat)
    (maxsize count : Nat) (cand : List Nat) (errno : Int)
    (h0 : maxsize ≠ 0) (hR : maxsize ≤ cfg.RSIZE_MAX_STR)
    (hL : maxsize ≤ cfg.L_tmpnam_s) (hc : count + 1 ≤ cfg.TMP_MAX_S)
    (hlen : cand.length = maxsize) :
    (tmpnam_s cfg (some buf) maxsize count (some cand) errno).ret = EOK ∧
    (tmpnam_s cfg (some buf) maxsize count (some cand) errno).kind =
      Outcome.ok ∧
    bufAt (tmpnam_s cfg (some buf) maxsize count (some cand) errno) maxsize =
      some 0 ∧
    ∀ i, i < maxsize →
      bufAt (tmpnam_s cfg (some buf) maxsize count (some cand) errno) i =
        some (cand.getD i 0) := by
  have heq := tmpnam_s_ok_eq cfg buf maxsize count cand errno h0 hR hL hc
    (by omega)
  refine ⟨by rw [heq], by rw [heq], ?_, ?_⟩
  · rw [heq]
    simp only [bufAt, Option.map_some', Option.some.injEq]
    have := okBuf_term cfg buf maxsize cand (by omega)
    rwa [hlen] at this
  · intro i hi
    rw [heq]
    simp only [bufAt, Option.map_some', Option.some.injEq]
    exact okBuf_lt cfg buf maxsize cand i (by omega)

/-- Closed witness for C9: capacity 5 with the 5-byte candidate succeeds,
byte 5 (one past the capacity) is the terminator, byte 0 is the candidate's
first byte. -/
theorem tmpnam_s_exact_fit_witness :
    (tmpnam_s cfgW (some bufW) 5 0 (some candW) 2).ret = EOK ∧
    (tmpnam_s cfgW (some bufW) 5 0 (some candW) 2).kind = Outcome.ok ∧
    bufAt (tmpnam_s cfgW (some bufW) 5 0 (some candW) 2) 5 = some 0 ∧
    bufAt (tmpnam_s cfgW (some bufW) 5 0 (some candW) 2) 0 =
      some (candW.getD 0 0) := by
  have h := tmpnam_s_exact_fit cfgW bufW 5 0 candW 2 (by decide) (by decide)
    (by decide) (by decide) (by decide)
  exact ⟨h.1, h.2.1, h.2.2.1, h.2.2.2 0 (by decide)⟩

end Safeclib
